import Mathlib

/-!
# Verification of the `edit_deploy` / `edit_cr` kubectl plugins

Shallow embedding of the two kubectl plugins in this repository:

* `kubectl-edit_deploy.go` — edits `replicas` and `revisionHistoryLimit` of a
  Deployment via a fetch–mutate–update loop under `retry.RetryOnConflict`;
* `kubectl-edit_cr.go` — appends one `PolicyRule` to a ClusterRole under the
  same retry combinator.

The remote cluster store is modelled explicitly: the named object is an
`Option` value (present / not found) carrying an opaque `resourceVersion`
that the store's `update` compares for optimistic concurrency.  Concurrent
writers and transport failures are modelled by a per-attempt environment
list `List (AttemptEnv β)` consumed one entry per retry attempt; network
round-trips are counted in `ClusterState.calls`.
-/

set_option autoImplicit false

namespace EditTools

/-- Errors produced by the kubernetes client, as the Go code distinguishes
them.  `wrapped` models `fmt.Errorf("...: %v", err)`, which produces a plain
error; `errors.IsConflict` of a wrapped error is `false` because the wrapping
discards the typed status. -/
inductive KubeErr where
  | conflict : KubeErr
  | notFound (name : String) : KubeErr
  | other (msg : String) : KubeErr
  | wrapped (pre : String) (e : KubeErr) : KubeErr
deriving DecidableEq, Repr

/-- `errors.IsConflict` from `k8s.io/apimachinery`: true only for a typed
Conflict status error, not for any error whose message merely mentions one. -/
def isConflict : KubeErr → Bool
  | .conflict => true
  | _ => false

/-- Rendering of a client error as a message (the `%v` verb). -/
def KubeErr.render : KubeErr → String
  | .conflict => "Operation cannot be fulfilled: the object has been modified; please apply your changes to the latest version and try again"
  | .notFound n => "deployments.apps \"" ++ n ++ "\" not found"
  | .other m => m
  | .wrapped pre e => pre ++ e.render

/-- The errors the command itself returns to cobra's `RunE`, by provenance:
`usage` errors are the `fmt.Errorf` strings of `Complete`'s name check and of
`Validate`; `fromGet` is the error of `Complete`'s fetch, returned verbatim
(line 135 of kubectl-edit_deploy.go); `updateFailed` is `Run`'s wrapper
`fmt.Errorf("update failed: %v", retryErr)`. -/
inductive CmdErr where
  | usage (msg : String) : CmdErr
  | fromGet (e : KubeErr) : CmdErr
  | updateFailed (e : KubeErr) : CmdErr
deriving DecidableEq, Repr

/-- The message the process prints for each command error. -/
def CmdErr.render : CmdErr → String
  | .usage m => m
  | .fromGet e => e.render
  | .updateFailed e => "update failed: " ++ e.render

/-- `Spec.Replicas` and `Spec.RevisionHistoryLimit` of a Deployment
(`int32` pointers in the Go API; the values as integers). -/
structure DeploymentSpec where
  replicas : Int
  revisionHistoryLimit : Int
deriving DecidableEq, Repr

/-- A stored Deployment object: its opaque `resourceVersion` (used by the
store's optimistic-concurrency check) and the spec fields this tool touches. -/
structure Deployment where
  resourceVersion : Nat
  spec : DeploymentSpec
deriving DecidableEq, Repr

/-- One RBAC rule, as built at kubectl-edit_cr.go line 168. -/
structure PolicyRule where
  verbs : List String
  apiGroups : List String
  resources : List String
deriving DecidableEq, Repr

/-- A stored ClusterRole object. -/
structure ClusterRole where
  resourceVersion : Nat
  rules : List PolicyRule
deriving DecidableEq, Repr

/-- What the environment does during one retry attempt: `getFail` is a
transport failure of that attempt's `Get` (if any), and `interfere` is the
effect of concurrent writers on the stored object between this attempt's
`Get` and its `Update`. -/
structure AttemptEnv (β : Type) where
  getFail : Option String
  interfere : Option β → Option β

/-- The benign environment: the `Get` succeeds and no concurrent writer
touches the object. -/
def AttemptEnv.quiet (β : Type) : AttemptEnv β := ⟨none, id⟩

/-- State of the remote cluster as seen by one command invocation: the named
object's current stored value (`none` = not found), the environment of the
forthcoming attempts (one entry consumed per attempt; exhausted list means
quiet), and a count of network round-trips performed so far. -/
structure ClusterState (β : Type) where
  store : Option β
  envs : List (AttemptEnv β)
  calls : Nat

/-- The store's `update`: succeeds only when the candidate carries the
currently stored `resourceVersion` (optimistic concurrency), bumping the
version; a stale candidate is rejected as a typed Conflict; updating a
missing object is NotFound. -/
def updateObject {β : Type} (version : β → Nat) (bump : β → β) (name : String)
    (cand : β) (store : Option β) : Except KubeErr (Option β) :=
  match store with
  | none => .error (.notFound name)
  | some cur =>
      if version cand = version cur then .ok (some (bump cand))
      else .error .conflict

/-- `retry.OnError` from `k8s.io/client-go/util/retry`, threading the cluster
state through the attempts: run the body up to `steps` times; a `none`
(success) returns at once; a retriable error is remembered and the loop
continues; a non-retriable error returns at once; exhausting the steps
returns the last retriable error (`ErrWaitTimeout` is replaced by `lastErr`
in `OnError`). -/
def onErrorS {σ : Type} (retriable : KubeErr → Bool) (fn : σ → Option KubeErr × σ) :
    Nat → Option KubeErr → σ → Option KubeErr × σ
  | 0, lastErr, s => (lastErr, s)
  | steps + 1, _, s =>
      match fn s with
      | (none, s') => (none, s')
      | (some e, s') =>
          if retriable e then onErrorS retriable fn steps (some e) s'
          else (some e, s')

/-- `retry.DefaultRetry.Steps` (= 5 attempts). -/
def defaultRetrySteps : Nat := 5

/-- `retry.RetryOnConflict(retry.DefaultRetry, fn)`: `OnError` with
`errors.IsConflict` as the retriable predicate. -/
def retryOnConflictS {σ : Type} (fn : σ → Option KubeErr × σ) (s : σ) :
    Option KubeErr × σ :=
  onErrorS isConflict fn defaultRetrySteps none s

/-- Bump a Deployment's resource version (the store's effect of a successful
write). -/
def Deployment.bump (d : Deployment) : Deployment :=
  { d with resourceVersion := d.resourceVersion + 1 }

/-- The body of the retry closure in `Run` (kubectl-edit_deploy.go lines
184–193): fetch the deployment — a failed fetch is wrapped by
`fmt.Errorf("failed to get latest version fo Deployment: %v", getErr)` and
returned (a non-conflict error) — then overwrite both spec fields with the
completed flag values and attempt the store update, returning its error
verbatim. -/
def deployAttemptBody (name : String) (newReplicas newRhl : Int)
    (env : AttemptEnv Deployment) (store : Option Deployment) :
    Option KubeErr × Option Deployment :=
  match env.getFail with
  | some m => (some (.wrapped "failed to get latest version fo Deployment: " (.other m)), store)
  | none =>
      match store with
      | none => (some (.wrapped "failed to get latest version fo Deployment: " (.notFound name)), store)
      | some result =>
          let cand : Deployment :=
            { result with spec := { replicas := newReplicas, revisionHistoryLimit := newRhl } }
          let store1 := env.interfere store
          match updateObject Deployment.resourceVersion Deployment.bump name cand store1 with
          | .ok store2 => (none, store2)
          | .error ue => (some ue, store1)

/-- One retry attempt of the deploy editor as a state transformer: consume
this attempt's environment entry, run the closure body, and count the
attempt's network round-trips (one `Get`, plus one `Update` when the `Get`
succeeded). -/
def deployAttempt (name : String) (newReplicas newRhl : Int)
    (s : ClusterState Deployment) : Option KubeErr × ClusterState Deployment :=
  let env := s.envs.headD (AttemptEnv.quiet Deployment)
  let (e, store') := deployAttemptBody name newReplicas newRhl env s.store
  (e, { store := store', envs := s.envs.tail,
        calls := s.calls + (if env.getFail.isNone ∧ s.store.isSome then 2 else 1) })

/-- `Run` of the deploy editor (kubectl-edit_deploy.go lines 167–202):
`RetryOnConflict` over the attempt body; a non-nil retry error is wrapped as
`fmt.Errorf("update failed: %v", retryErr)`. -/
def deployRun (name : String) (newReplicas newRhl : Int)
    (s : ClusterState Deployment) : Option CmdErr × ClusterState Deployment :=
  match retryOnConflictS (deployAttempt name newReplicas newRhl) s with
  | (some e, s') => (some (.updateFailed e), s')
  | (none, s') => (none, s')

/-- Namespace resolution of `Complete` (kubectl-edit_deploy.go lines
117–129): the `--namespace` flag when non-empty; otherwise the namespace of
the kubeconfig's current context; otherwise the literal fallback string
`"Default"`. -/
def resolveNamespace (flagNs ctxNs : String) : String :=
  let userSpecifiedNamespace := flagNs
  let userSpecifiedNamespace :=
    if userSpecifiedNamespace.length = 0 then ctxNs else userSpecifiedNamespace
  if userSpecifiedNamespace.length = 0 then "Default" else userSpecifiedNamespace

/-- The flag/argument fields of `EditDeployOptions` that `Complete` and
`Validate` consult. -/
structure EditDeployOptions where
  newReplicas : Int
  newRhl : Int
  deploymentName : String
  args : List String
deriving DecidableEq, Repr

/-- The options as `NewCmdEdit` registers the flags (lines 80–81): the
`--replicas` flag defaults to the zero value `0` and the `--rhl` flag
defaults to `-1`. -/
def initDeployOptions (replicasFlag rhlFlag : Int) : EditDeployOptions :=
  { newReplicas := replicasFlag, newRhl := rhlFlag, deploymentName := "", args := [] }

/-- `Complete` of the deploy editor (kubectl-edit_deploy.go lines 88–147):
record the args; take the first positional argument as the deployment name
and fail before any network call when it is missing; fetch the named
deployment from the store (one network round-trip), returning a fetch error
verbatim; then substitute the live value for a non-positive `--replicas`
value and for a negative `--rhl` value. -/
def deployComplete (o : EditDeployOptions) (args : List String)
    (s : ClusterState Deployment) :
    Except CmdErr EditDeployOptions × ClusterState Deployment :=
  let o := { o with args := args }
  let o := if args.length > 0 then { o with deploymentName := args.headD "" } else o
  if o.deploymentName.length = 0 then
    (.error (.usage "deployment name not specified"), s)
  else
    let s := { s with calls := s.calls + 1 }
    match s.store with
    | none => (.error (.fromGet (.notFound o.deploymentName)), s)
    | some result =>
        let o := if o.newReplicas ≤ 0 then { o with newReplicas := result.spec.replicas } else o
        let o := if o.newRhl < 0 then { o with newRhl := result.spec.revisionHistoryLimit } else o
        (.ok o, s)

/-- `Validate` of the deploy editor (kubectl-edit_deploy.go lines 150–164). -/
def deployValidate (o : EditDeployOptions) : Option CmdErr :=
  if o.args.length ≠ 1 then some (.usage "only one argument is allowed")
  else if o.newReplicas ≤ 0 then some (.usage "invalid number of replicas")
  else if o.newRhl < 0 then some (.usage "invalid value of RevisionHistoryLimit")
  else none

/-- The whole `RunE` pipeline of the deploy editor (kubectl-edit_deploy.go
lines 63–76): `Complete`, then `Validate`, then `Run`, each short-circuiting
on error.  Returns the command error (if any) and the final cluster state. -/
def editDeployExec (replicasFlag rhlFlag : Int) (args : List String)
    (s : ClusterState Deployment) : Option CmdErr × ClusterState Deployment :=
  match deployComplete (initDeployOptions replicasFlag rhlFlag) args s with
  | (.error e, s') => (some e, s')
  | (.ok o, s') =>
      match deployValidate o with
      | some e => (some e, s')
      | none => deployRun o.deploymentName o.newReplicas o.newRhl s'

/-! ## The ClusterRole editor (`kubectl-edit_cr.go`) -/

/-- Split a character list around each occurrence of the separator
character.  Always returns at least one (possibly empty) piece. -/
def splitAround (sep : Char) : List Char → List (List Char)
  | [] => [[]]
  | c :: cs =>
      match splitAround sep cs with
      | [] => [[]]
      | piece :: rest =>
          if c = sep then [] :: piece :: rest else (c :: piece) :: rest

/-- Go's `strings.Split(s, ",")`: split `s` around each comma; splitting the
empty string yields the one-element list `[""]`. -/
def goSplitComma (s : String) : List String :=
  (splitAround ',' s.data).map List.asString

/-- The rule built at kubectl-edit_cr.go lines 165–168 from the three
comma-separated flag values:
`v1.PolicyRule{Verbs: listVerbs, Resources: listResources, APIGroups: listApiGroups}`. -/
def newRule (verbs resources groups : String) : PolicyRule :=
  { verbs := goSplitComma verbs
    apiGroups := goSplitComma groups
    resources := goSplitComma resources }

/-- Bump a ClusterRole's resource version (the store's effect of a
successful write). -/
def ClusterRole.bump (r : ClusterRole) : ClusterRole :=
  { r with resourceVersion := r.resourceVersion + 1 }

/-- The body of the retry closure in the ClusterRole editor's `Run`
(kubectl-edit_cr.go lines 159–171): fetch the role (a failed fetch is
wrapped exactly as in the deploy editor, with the same message), append the
new rule to the fetched role's rule list, and attempt the store update. -/
def crAttemptBody (name : String) (verbs resources groups : String)
    (env : AttemptEnv ClusterRole) (store : Option ClusterRole) :
    Option KubeErr × Option ClusterRole :=
  match env.getFail with
  | some m => (some (.wrapped "failed to get latest version fo Deployment: " (.other m)), store)
  | none =>
      match store with
      | none => (some (.wrapped "failed to get latest version fo Deployment: " (.notFound name)), store)
      | some result =>
          let cand : ClusterRole :=
            { result with rules := result.rules ++ [newRule verbs resources groups] }
          let store1 := env.interfere store
          match updateObject ClusterRole.resourceVersion ClusterRole.bump name cand store1 with
          | .ok store2 => (none, store2)
          | .error ue => (some ue, store1)

/-- One retry attempt of the ClusterRole editor as a state transformer. -/
def crAttempt (name : String) (verbs resources groups : String)
    (s : ClusterState ClusterRole) : Option KubeErr × ClusterState ClusterRole :=
  let env := s.envs.headD (AttemptEnv.quiet ClusterRole)
  let (e, store') := crAttemptBody name verbs resources groups env s.store
  (e, { store := store', envs := s.envs.tail,
        calls := s.calls + (if env.getFail.isNone ∧ s.store.isSome then 2 else 1) })

/-- `Run` of the ClusterRole editor (kubectl-edit_cr.go lines 142–180). -/
def crRun (name : String) (verbs resources groups : String)
    (s : ClusterState ClusterRole) : Option CmdErr × ClusterState ClusterRole :=
  match retryOnConflictS (crAttempt name verbs resources groups) s with
  | (some e, s') => (some (.updateFailed e), s')
  | (none, s') => (none, s')

/-- The flag/argument fields of the ClusterRole editor's options struct. -/
structure EditCrOptions where
  newVerbs : String
  newApiGroups : String
  newResources : String
  clusterRoleName : String
  args : List String
deriving DecidableEq, Repr

/-- `Complete` of the ClusterRole editor (kubectl-edit_cr.go lines 94–122):
record the args, take the first positional argument as the role name, fail
when it is missing; client construction performs no fetch. -/
def crComplete (o : EditCrOptions) (args : List String) :
    Except CmdErr EditCrOptions :=
  let o := { o with args := args }
  let o := if args.length > 0 then { o with clusterRoleName := args.headD "" } else o
  if o.clusterRoleName.length = 0 then .error (.usage "ClusterRole name not specified")
  else .ok o

/-- `Validate` of the ClusterRole editor (kubectl-edit_cr.go lines 125–139). -/
def crValidate (o : EditCrOptions) : Option CmdErr :=
  if o.args.length ≠ 1 then some (.usage "only one argument is allowed")
  else if o.newVerbs.length = 0 then some (.usage "verb feild is empty")
  else if o.newResources.length = 0 then some (.usage "resource feild is empty")
  else none

/-- The whole `RunE` pipeline of the ClusterRole editor (kubectl-edit_cr.go
lines 67–80): `Complete`, then `Validate`, then `Run`. -/
def editCrExec (verbs groups resources : String) (args : List String)
    (s : ClusterState ClusterRole) : Option CmdErr × ClusterState ClusterRole :=
  match crComplete { newVerbs := verbs, newApiGroups := groups,
                     newResources := resources, clusterRoleName := "", args := [] } args with
  | .error e => (some e, s)
  | .ok o =>
      match crValidate o with
      | some e => (some e, s)
      | none => crRun o.clusterRoleName o.newVerbs o.newResources o.newApiGroups s

/-! ## Concrete objects used by witnesses and counterexamples -/

/-- The Deployment of the spec's example scenario: `replicas=3`,
`revisionHistoryLimit=10`. -/
def webDeployment : Deployment := ⟨7, ⟨3, 10⟩⟩

/-- A concurrent writer that changes the stored Deployment (bumping its
resource version) between this tool's `Get` and `Update`, making the
attempt's update stale. -/
def conflictEnv : AttemptEnv Deployment := ⟨none, Option.map Deployment.bump⟩

/-- A transport failure of an attempt's `Get`. -/
def getFailEnv (m : String) : AttemptEnv Deployment := ⟨some m, id⟩

/-! ## Helper lemmas -/

theorem onErrorS_succ_ok {σ : Type} (retriable : KubeErr → Bool)
    (fn : σ → Option KubeErr × σ) (k : Nat) (last : Option KubeErr) (s s' : σ)
    (h : fn s = (none, s')) :
    onErrorS retriable fn (k + 1) last s = (none, s') := by
  simp [onErrorS, h]

theorem onErrorS_succ_abort {σ : Type} (retriable : KubeErr → Bool)
    (fn : σ → Option KubeErr × σ) (k : Nat) (last : Option KubeErr) (s s' : σ)
    (e : KubeErr) (h : fn s = (some e, s')) (hr : retriable e = false) :
    onErrorS retriable fn (k + 1) last s = (some e, s') := by
  simp [onErrorS, h, hr]

theorem onErrorS_succ_retry {σ : Type} (retriable : KubeErr → Bool)
    (fn : σ → Option KubeErr × σ) (k : Nat) (last : Option KubeErr) (s s' : σ)
    (e : KubeErr) (h : fn s = (some e, s')) (hr : retriable e = true) :
    onErrorS retriable fn (k + 1) last s = onErrorS retriable fn k (some e) s' := by
  simp [onErrorS, h, hr]

theorem splitAround_ne_nil (sep : Char) (l : List Char) : splitAround sep l ≠ [] := by
  induction l with
  | nil => simp [splitAround]
  | cons c cs ih =>
      simp only [splitAround]
      cases h : splitAround sep cs with
      | nil => simp
      | cons piece rest =>
          by_cases hc : c = sep <;> simp [hc]

theorem goSplitComma_ne_nil (s : String) : goSplitComma s ≠ [] := by
  simpa [goSplitComma] using splitAround_ne_nil ',' s.data

/-- `Run` never produces a usage error: its only error constructor is
`updateFailed`. -/
theorem deployRun_no_usage (name : String) (r rhl : Int)
    (s : ClusterState Deployment) (m : String) :
    (deployRun name r rhl s).1 ≠ some (.usage m) := by
  unfold deployRun
  rcases h : retryOnConflictS (deployAttempt name r rhl) s with ⟨e, s'⟩
  cases e <;> simp

/-! ## The claims -/

/-- C1: for every positive integer `N`, running the replica editor with
`--replicas=N` (and `--rhl` unset, its default `-1`) on an existing
Deployment, undisturbed by concurrent writers, succeeds and leaves the
stored Deployment with replica count `N`. -/
theorem editDeploy_sets_replicas (N r0 rhl0 : Int) (rv : Nat) (name : String)
    (hN : 0 < N) (hrhl : 0 ≤ rhl0) (hname : name.length ≠ 0) :
    (editDeployExec N (-1) [name] ⟨some ⟨rv, ⟨r0, rhl0⟩⟩, [], 0⟩).1 = none ∧
    ((editDeployExec N (-1) [name] ⟨some ⟨rv, ⟨r0, rhl0⟩⟩, [], 0⟩).2.store.map
      fun d => d.spec.replicas) = some N := by
  have h1 : ¬ (N ≤ 0) := by omega
  have h2 : ¬ (rhl0 < 0) := by omega
  have h3 : (-1 : Int) < 0 := by norm_num
  simp [editDeployExec, deployComplete, initDeployOptions, deployValidate, deployRun,
    retryOnConflictS, defaultRetrySteps, onErrorS, deployAttempt, deployAttemptBody,
    AttemptEnv.quiet, updateObject, Deployment.bump, hname, h1, h2, h3]

/-- Witness for C1: `--replicas=5` on the example Deployment
(`replicas=3`, `revisionHistoryLimit=10`) stores `replicas=5`. -/
theorem editDeploy_sets_replicas_witness :
    (editDeployExec 5 (-1) ["web"] ⟨some webDeployment, [], 0⟩).1 = none ∧
    ((editDeployExec 5 (-1) ["web"] ⟨some webDeployment, [], 0⟩).2.store.map
      fun d => d.spec.replicas) = some 5 :=
  editDeploy_sets_replicas 5 3 10 7 "web" (by norm_num) (by norm_num) (by decide)

/-- C2: inside the update loop, only a version conflict from the persist
step is retried.  (1) A non-conflict error of the attempt body stops the
loop at once with that error; (2) a conflict error makes the loop continue
into the remaining attempts; (3) a fetch failure produces the wrapped
(hence non-conflict) error, leaving the store untouched, so by (1) it
aborts the loop on first occurrence and is surfaced. -/
theorem retry_discipline :
    (∀ (name : String) (r rhl : Int) (s s' : ClusterState Deployment)
        (e : KubeErr) (k : Nat) (last : Option KubeErr),
      deployAttempt name r rhl s = (some e, s') → isConflict e = false →
      onErrorS isConflict (deployAttempt name r rhl) (k + 1) last s = (some e, s')) ∧
    (∀ (name : String) (r rhl : Int) (s s' : ClusterState Deployment)
        (e : KubeErr) (k : Nat) (last : Option KubeErr),
      deployAttempt name r rhl s = (some e, s') → isConflict e = true →
      onErrorS isConflict (deployAttempt name r rhl) (k + 1) last s =
        onErrorS isConflict (deployAttempt name r rhl) k (some e) s') ∧
    (∀ (name : String) (r rhl : Int) (s : ClusterState Deployment)
        (m : String) (f : Option Deployment → Option Deployment)
        (rest : List (AttemptEnv Deployment)),
      s.envs = ⟨some m, f⟩ :: rest →
      deployAttempt name r rhl s =
        (some (.wrapped "failed to get latest version fo Deployment: " (.other m)),
         ⟨s.store, rest, s.calls + 1⟩) ∧
      isConflict (.wrapped "failed to get latest version fo Deployment: " (.other m)) = false) := by
  refine ⟨?_, ?_, ?_⟩
  · intro name r rhl s s' e k last h hr
    exact onErrorS_succ_abort isConflict (deployAttempt name r rhl) k last s s' e h hr
  · intro name r rhl s s' e k last h hr
    exact onErrorS_succ_retry isConflict (deployAttempt name r rhl) k last s s' e h hr
  · intro name r rhl s m f rest henv
    constructor
    · simp [deployAttempt, deployAttemptBody, henv]
    · simp [isConflict]

/-- Witness for C2: on a state whose first attempt environment is a `Get`
transport failure, the 5-attempt loop aborts at the first attempt with the
wrapped error, the store untouched. -/
theorem retry_discipline_witness :
    onErrorS isConflict (deployAttempt "web" 5 10) 5 none
        ⟨some webDeployment, [getFailEnv "connection refused"], 0⟩ =
      (some (.wrapped "failed to get latest version fo Deployment: "
        (.other "connection refused")),
       ⟨some webDeployment, [], 1⟩) :=
  retry_discipline.1 "web" 5 10
    ⟨some webDeployment, [getFailEnv "connection refused"], 0⟩
    ⟨some webDeployment, [], 1⟩
    (.wrapped "failed to get latest version fo Deployment: " (.other "connection refused"))
    4 none
    ((retry_discipline.2.2 "web" 5 10
      ⟨some webDeployment, [getFailEnv "connection refused"], 0⟩
      "connection refused" id [] rfl).1)
    rfl

/-- C3: when all `defaultRetrySteps = 5` attempts end in a version conflict
(a concurrent writer disturbs the object between every `Get` and `Update`),
the command fails with `updateFailed conflict`, rendered with the
"update failed" prefix and distinct by construction from usage/validation
errors and from the verbatim not-found error, and no write of this tool has
landed: the stored spec is exactly what the concurrent writers left. -/
theorem conflict_exhaustion_update_failed (N r0 rhl0 : Int) (rv : Nat) (name : String)
    (hN : 0 < N) (hrhl : 0 ≤ rhl0) (hname : name.length ≠ 0) :
    (editDeployExec N (-1) [name]
        ⟨some ⟨rv, ⟨r0, rhl0⟩⟩, List.replicate 5 conflictEnv, 0⟩).1 =
      some (.updateFailed .conflict) ∧
    CmdErr.render (.updateFailed .conflict) =
      "update failed: " ++ KubeErr.render .conflict ∧
    (editDeployExec N (-1) [name]
        ⟨some ⟨rv, ⟨r0, rhl0⟩⟩, List.replicate 5 conflictEnv, 0⟩).2.store =
      some ⟨rv + 5, ⟨r0, rhl0⟩⟩ ∧
    (∀ m : String, (CmdErr.updateFailed .conflict) ≠ .usage m) ∧
    (∀ e : KubeErr, (CmdErr.updateFailed .conflict) ≠ .fromGet e) := by
  have h1 : ¬ (N ≤ 0) := by omega
  have h2 : ¬ (rhl0 < 0) := by omega
  have h3 : (-1 : Int) < 0 := by norm_num
  refine ⟨?_, rfl, ?_, fun m => by simp, fun e => by simp⟩ <;>
    · simp [editDeployExec, deployComplete, initDeployOptions, deployValidate, deployRun,
        retryOnConflictS, defaultRetrySteps, onErrorS, deployAttempt, deployAttemptBody,
        conflictEnv, updateObject, Deployment.bump, List.replicate, isConflict,
        hname, h1, h2, h3]

/-- Witness for C3: five conflicting attempts on the example Deployment. -/
theorem conflict_exhaustion_update_failed_witness :
    (editDeployExec 5 (-1) ["web"]
        ⟨some webDeployment, List.replicate 5 conflictEnv, 0⟩).1 =
      some (.updateFailed .conflict) ∧
    (editDeployExec 5 (-1) ["web"]
        ⟨some webDeployment, List.replicate 5 conflictEnv, 0⟩).2.store =
      some ⟨12, ⟨3, 10⟩⟩ :=
  ⟨(conflict_exhaustion_update_failed 5 3 10 7 "web" (by norm_num) (by norm_num)
      (by decide)).1,
   (conflict_exhaustion_update_failed 5 3 10 7 "web" (by norm_num) (by norm_num)
      (by decide)).2.2.1⟩

/-- C4: a field the caller did not specify keeps its stored value: with
`--replicas=N` and `--rhl` unset, the stored `revisionHistoryLimit` is the
pre-call value; with `--rhl=K` and `--replicas` unset (its default `0`),
the stored `replicas` is the pre-call value. -/
theorem unspecified_fields_unchanged (N K r0 rhl0 : Int) (rv : Nat) (name : String)
    (hN : 0 < N) (hK : 0 ≤ K) (hr0 : 0 < r0) (hrhl : 0 ≤ rhl0)
    (hname : name.length ≠ 0) :
    (editDeployExec N (-1) [name] ⟨some ⟨rv, ⟨r0, rhl0⟩⟩, [], 0⟩).2.store =
      some ⟨rv + 1, ⟨N, rhl0⟩⟩ ∧
    (editDeployExec 0 K [name] ⟨some ⟨rv, ⟨r0, rhl0⟩⟩, [], 0⟩).2.store =
      some ⟨rv + 1, ⟨r0, K⟩⟩ := by
  have h1 : ¬ (N ≤ 0) := by omega
  have h2 : ¬ (rhl0 < 0) := by omega
  have h3 : (-1 : Int) < 0 := by norm_num
  have h4 : ¬ (K < 0) := by omega
  have h5 : ¬ (r0 ≤ 0) := by omega
  have h6 : (0 : Int) ≤ 0 := le_refl 0
  constructor <;>
    simp [editDeployExec, deployComplete, initDeployOptions, deployValidate, deployRun,
      retryOnConflictS, defaultRetrySteps, onErrorS, deployAttempt, deployAttemptBody,
      AttemptEnv.quiet, updateObject, Deployment.bump,
      hname, h1, h2, h3, h4, h5, h6]

/-- Witness for C4: the spec's example — `edit-deploy web --replicas=5` on
`replicas=3`, `revisionHistoryLimit=10` stores `replicas=5` with
`revisionHistoryLimit=10` unchanged. -/
theorem unspecified_fields_unchanged_witness :
    (editDeployExec 5 (-1) ["web"] ⟨some webDeployment, [], 0⟩).2.store =
      some ⟨8, ⟨5, 10⟩⟩ :=
  (unspecified_fields_unchanged 5 10 3 10 7 "web" (by norm_num) (by norm_num)
    (by norm_num) (by norm_num) (by decide)).1

/-- Counterexample to C5: invoking the editor with two positional arguments
on an existing Deployment reports the validation failure
"only one argument is allowed" only after one network call (the fetch in
`Complete`), not before any network call as claimed. -/
theorem validation_after_network_call_cex :
    (editDeployExec 5 (-1) ["web", "extra"] ⟨some webDeployment, [], 0⟩).1 =
      some (.usage "only one argument is allowed") ∧
    (editDeployExec 5 (-1) ["web", "extra"] ⟨some webDeployment, [], 0⟩).2.calls = 1 ∧
    (1 : Nat) ≠ 0 := by
  refine ⟨?_, ?_, by norm_num⟩ <;> rfl

/-- C5 as amended: only the deployment-name-presence check precedes any
network call (a missing name is reported with zero network calls made); the
argument-count and flag-value checks run in `Validate` only after
`Complete` has fetched the Deployment, so such a failure is reported after
exactly one network call. -/
theorem validation_order_amended :
    (∀ (rf rhlf : Int) (s : ClusterState Deployment),
      editDeployExec rf rhlf [] s =
        (some (.usage "deployment name not specified"), s)) ∧
    (∀ (rf rhlf : Int) (name extra : String) (rest : List String)
        (d : Deployment) (envs : List (AttemptEnv Deployment)) (c : Nat),
      name.length ≠ 0 →
      (editDeployExec rf rhlf (name :: extra :: rest) ⟨some d, envs, c⟩).1 =
        some (.usage "only one argument is allowed") ∧
      (editDeployExec rf rhlf (name :: extra :: rest) ⟨some d, envs, c⟩).2.calls =
        c + 1) := by
  constructor
  · intro rf rhlf s
    simp [editDeployExec, deployComplete, initDeployOptions]
  · intro rf rhlf name extra rest d envs c hname
    by_cases hrf : rf ≤ 0 <;> by_cases hrhl : rhlf < 0 <;>
      constructor <;>
        simp [editDeployExec, deployComplete, initDeployOptions, deployValidate,
          hname, hrf, hrhl]

/-- Witness for the amended C5. -/
theorem validation_order_amended_witness :
    editDeployExec 5 (-1) [] ⟨some webDeployment, [], 0⟩ =
      (some (.usage "deployment name not specified"), ⟨some webDeployment, [], 0⟩) ∧
    (editDeployExec 5 (-1) ["web", "extra"] ⟨some webDeployment, [], 3⟩).1 =
      some (.usage "only one argument is allowed") ∧
    (editDeployExec 5 (-1) ["web", "extra"] ⟨some webDeployment, [], 3⟩).2.calls = 4 :=
  ⟨validation_order_amended.1 5 (-1) ⟨some webDeployment, [], 0⟩,
   (validation_order_amended.2 5 (-1) "web" "extra" [] webDeployment [] 3 (by decide)).1,
   (validation_order_amended.2 5 (-1) "web" "extra" [] webDeployment [] 3 (by decide)).2⟩

/-- C6 (code bug): with no `--namespace` flag and no context namespace, the
code resolves to the literal capitalized string `"Default"`, which is not
the conventional lowercase `"default"` namespace the spec intends (the flag
and context precedence steps behave as specified). -/
theorem namespace_fallback_capitalized :
    resolveNamespace "team-a" "ctx-ns" = "team-a" ∧
    resolveNamespace "" "team-a" = "team-a" ∧
    resolveNamespace "" "" = "Default" ∧
    "Default" ≠ "default" := by
  refine ⟨rfl, rfl, rfl, by decide⟩

/-- C7: one invocation of the ClusterRole editor appends exactly the one
rule built from the comma-split flags to the end of the existing rule
sequence; a second invocation with the same flags appends it again, leaving
two duplicate entries. -/
theorem cr_appends_one_rule (name verbs resources groups : String) (rv : Nat)
    (rules0 : List PolicyRule) (hname : name.length ≠ 0)
    (hv : verbs.length ≠ 0) (hr : resources.length ≠ 0) :
    (editCrExec verbs groups resources [name] ⟨some ⟨rv, rules0⟩, [], 0⟩).1 = none ∧
    (editCrExec verbs groups resources [name] ⟨some ⟨rv, rules0⟩, [], 0⟩).2.store =
      some ⟨rv + 1, rules0 ++ [newRule verbs resources groups]⟩ ∧
    (editCrExec verbs groups resources [name]
        (editCrExec verbs groups resources [name] ⟨some ⟨rv, rules0⟩, [], 0⟩).2).1 =
      none ∧
    (editCrExec verbs groups resources [name]
        (editCrExec verbs groups resources [name] ⟨some ⟨rv, rules0⟩, [], 0⟩).2).2.store =
      some ⟨rv + 2,
        rules0 ++ [newRule verbs resources groups, newRule verbs resources groups]⟩ := by
  refine ⟨?_, ?_, ?_, ?_⟩ <;>
    simp [editCrExec, crComplete, crValidate, crRun, retryOnConflictS,
      defaultRetrySteps, onErrorS, crAttempt, crAttemptBody, AttemptEnv.quiet,
      updateObject, ClusterRole.bump, hname, hv, hr]

/-- Witness for C7: the spec's example — `edit-cr viewer --verbs=list,watch
--resources=configmaps --groups=` on a role with the single rule
`{verbs:[get], resources:[pods], apiGroups:[""]}` stores the original rule
plus `{verbs:[list,watch], resources:[configmaps], apiGroups:[""]}`; a
second identical call duplicates the appended rule. -/
theorem cr_appends_one_rule_witness :
    (editCrExec "list,watch" "" "configmaps" ["viewer"]
        ⟨some ⟨1, [⟨["get"], [""], ["pods"]⟩]⟩, [], 0⟩).2.store =
      some ⟨2, [⟨["get"], [""], ["pods"]⟩,
                ⟨["list", "watch"], [""], ["configmaps"]⟩]⟩ ∧
    (editCrExec "list,watch" "" "configmaps" ["viewer"]
        (editCrExec "list,watch" "" "configmaps" ["viewer"]
          ⟨some ⟨1, [⟨["get"], [""], ["pods"]⟩]⟩, [], 0⟩).2).2.store =
      some ⟨3, [⟨["get"], [""], ["pods"]⟩,
                ⟨["list", "watch"], [""], ["configmaps"]⟩,
                ⟨["list", "watch"], [""], ["configmaps"]⟩]⟩ :=
  ⟨(cr_appends_one_rule "viewer" "list,watch" "configmaps" "" 1
      [⟨["get"], [""], ["pods"]⟩] (by decide) (by decide) (by decide)).2.1,
   (cr_appends_one_rule "viewer" "list,watch" "configmaps" "" 1
      [⟨["get"], [""], ["pods"]⟩] (by decide) (by decide) (by decide)).2.2.2⟩

/-- C8: invoking the replica editor twice in succession with the same
`--replicas=N` does not error on the second call, and the final stored
replica count equals the count after one invocation, namely `N`. -/
theorem editDeploy_idempotent (N r0 rhl0 : Int) (rv : Nat) (name : String)
    (hN : 0 < N) (hrhl : 0 ≤ rhl0) (hname : name.length ≠ 0) :
    (editDeployExec N (-1) [name]
        (editDeployExec N (-1) [name] ⟨some ⟨rv, ⟨r0, rhl0⟩⟩, [], 0⟩).2).1 = none ∧
    ((editDeployExec N (-1) [name]
        (editDeployExec N (-1) [name] ⟨some ⟨rv, ⟨r0, rhl0⟩⟩, [], 0⟩).2).2.store.map
      fun d => d.spec.replicas) = some N ∧
    ((editDeployExec N (-1) [name] ⟨some ⟨rv, ⟨r0, rhl0⟩⟩, [], 0⟩).2.store.map
      fun d => d.spec.replicas) = some N := by
  have h1 : ¬ (N ≤ 0) := by omega
  have h2 : ¬ (rhl0 < 0) := by omega
  have h3 : (-1 : Int) < 0 := by norm_num
  refine ⟨?_, ?_, ?_⟩ <;>
    simp [editDeployExec, deployComplete, initDeployOptions, deployValidate, deployRun,
      retryOnConflictS, defaultRetrySteps, onErrorS, deployAttempt, deployAttemptBody,
      AttemptEnv.quiet, updateObject, Deployment.bump, hname, h1, h2, h3]

/-- Witness for C8: `--replicas=5` twice on the example Deployment. -/
theorem editDeploy_idempotent_witness :
    (editDeployExec 5 (-1) ["web"]
        (editDeployExec 5 (-1) ["web"] ⟨some webDeployment, [], 0⟩).2).1 = none ∧
    ((editDeployExec 5 (-1) ["web"]
        (editDeployExec 5 (-1) ["web"] ⟨some webDeployment, [], 0⟩).2).2.store.map
      fun d => d.spec.replicas) = some 5 :=
  ⟨(editDeploy_idempotent 5 3 10 7 "web" (by norm_num) (by norm_num) (by decide)).1,
   (editDeploy_idempotent 5 3 10 7 "web" (by norm_num) (by norm_num) (by decide)).2.1⟩

/-- C9: a non-positive `--replicas` value (including the unset default `0`)
is never rejected as an invalid flag value: `Complete` silently replaces it
with the live replica count (first conjunct), so the
"invalid number of replicas" validation error fires exactly when the live
count is itself non-positive (second conjunct); in particular a Deployment
currently scaled to `0` replicas cannot be edited at all, even only to
change the revision-history limit (third conjunct). -/
theorem nonpositive_replicas_silently_replaced :
    (∀ (rf rhlf : Int) (name : String) (d : Deployment)
        (envs : List (AttemptEnv Deployment)) (c : Nat),
      rf ≤ 0 → name.length ≠ 0 →
      (deployComplete (initDeployOptions rf rhlf) [name] ⟨some d, envs, c⟩).1 =
        .ok { newReplicas := d.spec.replicas,
              newRhl := if rhlf < 0 then d.spec.revisionHistoryLimit else rhlf,
              deploymentName := name, args := [name] }) ∧
    (∀ (rf rhlf : Int) (name : String) (d : Deployment)
        (envs : List (AttemptEnv Deployment)) (c : Nat),
      rf ≤ 0 → 0 ≤ rhlf → name.length ≠ 0 →
      ((editDeployExec rf rhlf [name] ⟨some d, envs, c⟩).1 =
          some (.usage "invalid number of replicas") ↔ d.spec.replicas ≤ 0)) ∧
    (∀ (k : Int) (name : String) (d : Deployment)
        (envs : List (AttemptEnv Deployment)) (c : Nat),
      0 ≤ k → d.spec.replicas = 0 → name.length ≠ 0 →
      (editDeployExec 0 k [name] ⟨some d, envs, c⟩).1 =
        some (.usage "invalid number of replicas")) := by
  have complete_eq : ∀ (rf rhlf : Int) (name : String) (d : Deployment)
      (envs : List (AttemptEnv Deployment)) (c : Nat),
      rf ≤ 0 → name.length ≠ 0 →
      (deployComplete (initDeployOptions rf rhlf) [name] ⟨some d, envs, c⟩).1 =
        .ok { newReplicas := d.spec.replicas,
              newRhl := if rhlf < 0 then d.spec.revisionHistoryLimit else rhlf,
              deploymentName := name, args := [name] } := by
    intro rf rhlf name d envs c hrf hname
    by_cases hrhl : rhlf < 0 <;>
      simp [deployComplete, initDeployOptions, hrf, hname, hrhl]
  refine ⟨complete_eq, ?_, ?_⟩
  · intro rf rhlf name d envs c hrf hrhl hname
    have hrhl2 : ¬ (rhlf < 0) := by omega
    by_cases hd : d.spec.replicas ≤ 0
    · simp [editDeployExec, deployComplete, initDeployOptions, deployValidate,
        hrf, hrhl2, hname, hd]
    · have hrun := deployRun_no_usage name d.spec.replicas rhlf
        ⟨some d, envs, c + 1⟩ "invalid number of replicas"
      simp only [editDeployExec, deployComplete, initDeployOptions, deployValidate]
      simp [hrf, hrhl2, hname, hd, hrun]
  · intro k name d envs c hk hd hname
    have hrf : (0 : Int) ≤ 0 := le_refl 0
    have hrhl2 : ¬ (k < 0) := by omega
    simp [editDeployExec, deployComplete, initDeployOptions, deployValidate,
      hrf, hrhl2, hname, hd]

/-- Witness for C9: the example Deployment scaled to `0` replicas cannot
have its revision-history limit edited — `--rhl=4` alone fails with
"invalid number of replicas". -/
theorem nonpositive_replicas_silently_replaced_witness :
    (deployComplete (initDeployOptions 0 4) ["web"] ⟨some ⟨7, ⟨0, 10⟩⟩, [], 0⟩).1 =
      .ok { newReplicas := 0, newRhl := 4, deploymentName := "web", args := ["web"] } ∧
    (editDeployExec 0 4 ["web"] ⟨some ⟨7, ⟨0, 10⟩⟩, [], 0⟩).1 =
      some (.usage "invalid number of replicas") :=
  ⟨nonpositive_replicas_silently_replaced.1 0 4 "web" ⟨7, ⟨0, 10⟩⟩ [] 0
      (by norm_num) (by decide),
   nonpositive_replicas_silently_replaced.2.2 4 "web" ⟨7, ⟨0, 10⟩⟩ [] 0
      (by norm_num) rfl (by decide)⟩

/-- C10: every rule the ClusterRole editor appends has non-empty `verbs`,
`resources` and `apiGroups` lists — comma-splitting always yields at least
one element — and an empty `--groups` value yields the one-element list
containing the empty string, never an empty list. -/
theorem appended_rule_lists_nonempty :
    (∀ verbs resources groups : String,
      (newRule verbs resources groups).verbs ≠ [] ∧
      (newRule verbs resources groups).resources ≠ [] ∧
      (newRule verbs resources groups).apiGroups ≠ []) ∧
    (∀ verbs resources : String, (newRule verbs resources "").apiGroups = [""]) := by
  constructor
  · intro v r g
    exact ⟨goSplitComma_ne_nil v, goSplitComma_ne_nil r, goSplitComma_ne_nil g⟩
  · intro v r
    rfl

end EditTools
